import Mathlib

/-!
The user_data_portal request handlers over the SQLite store.

A shallow embedding of `server.js` and `src/db.js`.

* The two tables of `src/db.js` are lists of rows in insertion (rowid) order.
* Every handler is a function from the request (body, session), the store and
  an `Oracle` (what the environment decides for this request: whether the
  database call fails for a reason of its own, the bcrypt salt, the clock) to
  an `Outcome`: the store afterwards, the session afterwards, the response and
  the SQL statements that were issued.
* JavaScript numbers, `parseFloat`, `String.prototype.toLowerCase` and the
  bcrypt library are not part of the repository: they are the fields of a
  `Runtime`, and every theorem holds for every runtime.
* Request bodies are the scalar form fields of `express.urlencoded`: a list of
  (name, string) pairs.
-/

namespace UserDataPortal

/-! ## Runtime primitives -/

/-- Primitives the handlers take from the JavaScript runtime and from bcrypt.
`N` is the type of JavaScript numbers; `sub` is the `-` of line 146 of
`server.js`; `bcryptHash pw salt` is `bcrypt.hash(pw, 10)` when the library
draws `salt`; `bcryptCompare pw h` is `bcrypt.compare(pw, h)`. -/
structure Runtime (N : Type) where
  parseFloat : String → N
  isNaN : N → Bool
  sub : N → N → N
  toLowerCase : String → String
  bcryptHash : String → String → String
  bcryptCompare : String → String → Bool

/-- An error object; only its `message` is read by the handlers. A missing
message and the empty message are both falsy and are both `""` here. -/
structure JsError where
  message : String
  deriving DecidableEq, Repr

/-- Negation `!x` for a body field: true for a missing field and for the empty string. -/
def jsFalsy : Option String → Bool
  | none => true
  | some s => s == ""

/-- Expression `x || null` for a body field (line 149). -/
def jsOrNull : Option String → Option String
  | none => none
  | some s => if s == "" then none else some s

/-- Method `s.includes(t)`: `t` occurs in `s` as a contiguous substring. -/
def jsIncludes (s t : String) : Bool :=
  decide (t.data <:+: s.data)

/-- Call `parseFloat(x)` for a body field: a missing field is `undefined`, which
`parseFloat` first converts to the string `"undefined"`. -/
def parseFloatField {N : Type} (rt : Runtime N) : Option String → N
  | none => rt.parseFloat "undefined"
  | some s => rt.parseFloat s

/-! ## Data model (`src/db.js`, lines 14-33) -/

/-- A row of `users`. `is_admin` is the 0/1 integer column. -/
structure User where
  id : Nat
  name : String
  email : String
  password_hash : String
  is_admin : Bool
  created_at : Nat
  deriving DecidableEq, Repr

/-- A row of `records`. -/
structure Record (N : Type) where
  id : Nat
  user_id : Nat
  input_value : N
  output_value : N
  remaining_value : N
  note : Option String
  created_at : Nat
  deriving DecidableEq, Repr

/-- The database: both tables in rowid order and the two AUTOINCREMENT
counters of `sqlite_sequence`. -/
structure Store (N : Type) where
  users : List User
  records : List (Record N)
  users_seq : Nat
  records_seq : Nat
  deriving DecidableEq, Repr

/-- The empty database, as the `CREATE TABLE` statements leave a new file. -/
def Store.empty (N : Type) : Store N :=
  { users := [], records := [], users_seq := 0, records_seq := 0 }

/-- What `req.session.user` holds (line 107). -/
structure SessionUser where
  id : Nat
  name : String
  email : String
  is_admin : Bool
  deriving DecidableEq, Repr

/-- Columns selected for the user dashboard (lines 122 and 138). -/
structure DashRow (N : Type) where
  id : Nat
  input_value : N
  output_value : N
  remaining_value : N
  note : Option String
  created_at : Nat
  deriving DecidableEq, Repr

/-- Columns selected by the all-records join (lines 160 and 186). -/
structure AdminRow (N : Type) where
  id : Nat
  name : String
  email : String
  input_value : N
  output_value : N
  remaining_value : N
  note : Option String
  created_at : Nat
  deriving DecidableEq, Repr

/-- The SQL statements of the repository, with their bound parameters. -/
inductive Stmt (N : Type) where
  | pragmaForeignKeys
  | createUsers
  | createRecords
  | countAdmins
  | insertUser (name email password_hash : String) (is_admin : Bool)
  | selectUserByEmail (email : String)
  | selectRecordsByUser (user_id : Nat)
  | insertRecord (user_id : Nat) (input_value output_value remaining_value : N)
      (note : Option String)
  | selectAllRecords
  deriving DecidableEq, Repr

/-! ## The store's operations -/

/-- The rowid AUTOINCREMENT assigns: one more than the largest id ever used. -/
def nextId (seq : Nat) (ids : List Nat) : Nat :=
  max seq (ids.foldr max 0) + 1

/-- The error sqlite3 reports when `users.email` is already present. -/
def uniqueEmailError : JsError :=
  ⟨"SQLITE_CONSTRAINT: UNIQUE constraint failed: users.email"⟩

/-- The error sqlite3 reports when a REAL NOT NULL column is bound to NaN
(SQLite stores NaN as NULL). -/
def notNullError : JsError :=
  ⟨"SQLITE_CONSTRAINT: NOT NULL constraint failed: records"⟩

/-- The error sqlite3 reports when `records.user_id` names no user. -/
def foreignKeyError : JsError :=
  ⟨"SQLITE_CONSTRAINT: FOREIGN KEY constraint failed"⟩

/-- Statement `INSERT INTO users (name, email, password_hash, is_admin)`:
fails with `fault` when the store raises it, with the UNIQUE error when the
email is present, and otherwise appends the row. -/
def db_insertUser {N : Type} (fault : Option JsError) (now : Nat)
    (name email password_hash : String) (is_admin : Bool) (s : Store N) :
    Except JsError (Store N) :=
  match fault with
  | some e => .error e
  | none =>
    if s.users.any (fun u => u.email == email) then .error uniqueEmailError
    else
      let id := nextId s.users_seq (s.users.map User.id)
      .ok { s with
        users := s.users ++ [⟨id, name, email, password_hash, is_admin, now⟩]
        users_seq := id }

/-- Statement `SELECT * FROM users WHERE email = ?` through `db.get`: the first
matching row, if any. -/
def db_getUserByEmail {N : Type} (fault : Option JsError) (email : String)
    (s : Store N) : Except JsError (Option User) :=
  match fault with
  | some e => .error e
  | none => .ok (s.users.find? (fun u => u.email == email))

/-- Statement `SELECT COUNT(*) as c FROM users WHERE is_admin = 1`. -/
def db_countAdmins {N : Type} (fault : Option JsError) (s : Store N) :
    Except JsError Nat :=
  match fault with
  | some e => .error e
  | none => .ok (s.users.filter (fun u => u.is_admin)).length

/-- Clause `ORDER BY created_at DESC`. -/
def orderByCreatedAtDesc {α : Type} (created_at : α → Nat) (rows : List α) : List α :=
  rows.insertionSort (fun a b => created_at b ≤ created_at a)

/-- The dashboard projection of a record. -/
def Record.toDashRow {N : Type} (r : Record N) : DashRow N :=
  ⟨r.id, r.input_value, r.output_value, r.remaining_value, r.note, r.created_at⟩

/-- Statement `SELECT id, input_value, ... FROM records WHERE user_id = ?
ORDER BY created_at DESC`. -/
def db_recordsForUser {N : Type} (fault : Option JsError) (user_id : Nat)
    (s : Store N) : Except JsError (List (DashRow N)) :=
  match fault with
  | some e => .error e
  | none =>
    .ok ((orderByCreatedAtDesc Record.created_at
      (s.records.filter (fun r => r.user_id == user_id))).map Record.toDashRow)

/-- Statement `INSERT INTO records (..., created_at) VALUES (?, ?, ?, ?, ?,
datetime("now"))`. -/
def db_insertRecord {N : Type} (isNaN : N → Bool) (fault : Option JsError) (now : Nat)
    (user_id : Nat) (input_value output_value remaining_value : N)
    (note : Option String) (s : Store N) : Except JsError (Store N) :=
  match fault with
  | some e => .error e
  | none =>
    if isNaN input_value || isNaN output_value || isNaN remaining_value then
      .error notNullError
    else if !(s.users.any (fun u => u.id == user_id)) then .error foreignKeyError
    else
      let id := nextId s.records_seq (s.records.map Record.id)
      .ok { s with
        records := s.records ++
          [⟨id, user_id, input_value, output_value, remaining_value, note, now⟩]
        records_seq := id }

/-- A record joined with its owner. -/
def joinRow {N : Type} (r : Record N) (u : User) : AdminRow N :=
  ⟨r.id, u.name, u.email, r.input_value, r.output_value, r.remaining_value, r.note,
    r.created_at⟩

/-- Statement `SELECT r.id, u.name, u.email, ... FROM records r JOIN users u ON
u.id = r.user_id ORDER BY r.created_at DESC`. -/
def db_allRecords {N : Type} (fault : Option JsError) (s : Store N) :
    Except JsError (List (AdminRow N)) :=
  match fault with
  | some e => .error e
  | none =>
    .ok (orderByCreatedAtDesc AdminRow.created_at
      (s.records.flatMap (fun r =>
        (s.users.filter (fun u => u.id == r.user_id)).map (joinRow r))))

/-! ## Responses -/

/-- A rendered view with the locals the handler passes to it. -/
inductive View (N : Type) where
  | register (error : Option String)
  | login (error : Option String)
  | user_dashboard (user : SessionUser) (records : List (DashRow N)) (error : Option String)
  | admin_dashboard (user : Option SessionUser) (rows : List (AdminRow N))
  deriving DecidableEq, Repr

/-- A spreadsheet cell. -/
inductive Cell (N : Type) where
  | int (n : Nat)
  | num (x : N)
  | text (s : String)
  | time (t : Nat)
  | null
  deriving DecidableEq, Repr

/-- One entry of `sheet.columns`. -/
structure Column where
  header : String
  key : String
  width : Nat
  deriving DecidableEq, Repr

/-- An ExcelJS worksheet: its name, its column definitions and its rows, the
first row being row 1 of the sheet. -/
structure Worksheet (N : Type) where
  name : String
  columns : List Column
  rows : List (List (Cell N))
  deriving DecidableEq, Repr

/-- What the handler sends back. `threw` is an exception that leaves the
handler (no response is written by it). -/
inductive Response (N : Type) where
  | redirect (location : String)
  | render (status : Nat) (view : View N)
  | send (headers : List (String × String)) (sheet : Worksheet N)
  | threw (what : String)
  deriving DecidableEq, Repr

/-- What the environment decides for one request: the error the store raises
for the request's database call for a reason of its own (none when it executes
the statement), the salt bcrypt draws, and the clock. -/
structure Oracle where
  fault : Option JsError
  salt : String
  now : Nat
  deriving DecidableEq, Repr

/-- A request body: the form fields by name. -/
abbrev Body := List (String × String)

/-- Result of running a handler. -/
structure Outcome (N : Type) where
  store : Store N
  session : Option SessionUser
  response : Response N
  issued : List (Stmt N)
  deriving DecidableEq, Repr

/-! ## Route guards (lines 36-43) -/

/-- What a guard does: call `next()` or answer with a redirect. -/
inductive GuardResult where
  | next
  | redirect (location : String)
  deriving DecidableEq, Repr

/-- Guard `ensureAuth` (lines 36-39). -/
def ensureAuth (session : Option SessionUser) : GuardResult :=
  match session with
  | some _ => .next
  | none => .redirect "/login"

/-- Guard `ensureAdmin` (lines 40-43). -/
def ensureAdmin (session : Option SessionUser) : GuardResult :=
  match session with
  | some u => if u.is_admin then .next else .redirect "/login"
  | none => .redirect "/login"

/-- A route `app.METHOD(path, guard, handler)`: the handler runs only when the
guard calls `next()`. -/
def guarded {N : Type} (guard : Option SessionUser → GuardResult)
    (handler : Option SessionUser → Store N → Outcome N)
    (session : Option SessionUser) (s : Store N) : Outcome N :=
  match guard session with
  | .next => handler session s
  | .redirect loc => ⟨s, session, .redirect loc, []⟩

/-! ## Handlers of `server.js` -/

/-- Handler of `POST /register` (lines 65-91). -/
def post_register {N : Type} (rt : Runtime N) (o : Oracle) (body : Body)
    (session : Option SessionUser) (s : Store N) : Outcome N :=
  let name := body.lookup "name"
  let email := body.lookup "email"
  let password := body.lookup "password"
  if jsFalsy name || jsFalsy email || jsFalsy password then
    ⟨s, session, .render 400 (.register (some "All fields are required.")), []⟩
  else
    let hashed := rt.bcryptHash (password.getD "") o.salt
    let params : Stmt N :=
      .insertUser (name.getD "") (rt.toLowerCase (email.getD "")) hashed false
    match db_insertUser o.fault o.now (name.getD "") (rt.toLowerCase (email.getD ""))
        hashed false s with
    | .error err =>
      let e : JsError :=
        if err.message != "" && jsIncludes err.message "UNIQUE" then
          ⟨"Email already registered."⟩
        else err
      ⟨s, session,
        .render 400 (.register
          (some (if e.message == "" then "Registration failed." else e.message))),
        [params]⟩
    | .ok s2 => ⟨s2, session, .redirect "/login", [params]⟩

/-- Handler of `POST /login` (lines 97-110). -/
def post_login {N : Type} (rt : Runtime N) (o : Oracle) (body : Body)
    (session : Option SessionUser) (s : Store N) : Outcome N :=
  let email := body.lookup "email"
  let password := body.lookup "password"
  if jsFalsy email || jsFalsy password then
    ⟨s, session, .render 400 (.login (some "Email and password required.")), []⟩
  else
    let key := rt.toLowerCase (email.getD "")
    match db_getUserByEmail o.fault key s with
    | .error _ =>
      ⟨s, session, .render 500 (.login (some "Server error.")), [.selectUserByEmail key]⟩
    | .ok none =>
      ⟨s, session, .render 401 (.login (some "Invalid credentials.")),
        [.selectUserByEmail key]⟩
    | .ok (some user) =>
      if !rt.bcryptCompare (password.getD "") user.password_hash then
        ⟨s, session, .render 401 (.login (some "Invalid credentials.")),
          [.selectUserByEmail key]⟩
      else
        ⟨s, some ⟨user.id, user.name, user.email, user.is_admin⟩,
          if user.is_admin then .redirect "/admin" else .redirect "/dashboard",
          [.selectUserByEmail key]⟩

/-- Handler of `GET /dashboard` (lines 119-129), behind `ensureAuth`. -/
def get_dashboard_handler {N : Type} (o : Oracle) (session : Option SessionUser)
    (s : Store N) : Outcome N :=
  match session with
  | none => ⟨s, session, .threw "TypeError", []⟩
  | some user =>
    if user.is_admin then ⟨s, session, .redirect "/admin", []⟩
    else
      let rows :=
        match db_recordsForUser o.fault user.id s with
        | .error _ => []
        | .ok rows => rows
      ⟨s, session, .render 200 (.user_dashboard user rows none),
        [.selectRecordsByUser user.id]⟩

/-- Route `GET /dashboard`. -/
def get_dashboard {N : Type} (o : Oracle) (session : Option SessionUser)
    (s : Store N) : Outcome N :=
  guarded ensureAuth (get_dashboard_handler o) session s

/-- Handler of `POST /records` (lines 131-155), behind `ensureAuth`. -/
def post_records_handler {N : Type} (rt : Runtime N) (o : Oracle) (body : Body)
    (session : Option SessionUser) (s : Store N) : Outcome N :=
  match session with
  | none => ⟨s, session, .threw "TypeError", []⟩
  | some user =>
    if user.is_admin then ⟨s, session, .redirect "/admin", []⟩
    else
      let iv := parseFloatField rt (body.lookup "input_value")
      let ov := parseFloatField rt (body.lookup "output_value")
      if rt.isNaN iv || rt.isNaN ov then
        let rows :=
          match db_recordsForUser o.fault user.id s with
          | .error _ => []
          | .ok rows => rows
        ⟨s, session,
          .render 400 (.user_dashboard user rows (some "Please enter valid numbers.")),
          [.selectRecordsByUser user.id]⟩
      else
        let remaining := rt.sub iv ov
        let note := jsOrNull (body.lookup "note")
        let s2 :=
          match db_insertRecord rt.isNaN o.fault o.now user.id iv ov remaining note s with
          | .error _ => s
          | .ok s2 => s2
        ⟨s2, session, .redirect "/dashboard",
          [.insertRecord user.id iv ov remaining note]⟩

/-- Route `POST /records`. -/
def post_records {N : Type} (rt : Runtime N) (o : Oracle) (body : Body)
    (session : Option SessionUser) (s : Store N) : Outcome N :=
  guarded ensureAuth (post_records_handler rt o body) session s

/-- Handler of `GET /admin` (lines 158-169), behind `ensureAdmin`. -/
def get_admin_handler {N : Type} (o : Oracle) (session : Option SessionUser)
    (s : Store N) : Outcome N :=
  let rows :=
    match db_allRecords o.fault s with
    | .error _ => []
    | .ok rows => rows
  ⟨s, session, .render 200 (.admin_dashboard session rows), [.selectAllRecords]⟩

/-- Route `GET /admin`. -/
def get_admin {N : Type} (o : Oracle) (session : Option SessionUser)
    (s : Store N) : Outcome N :=
  guarded ensureAdmin (get_admin_handler o) session s

/-! ### The spreadsheet export (lines 171-198) -/

/-- Method `workbook.addWorksheet(name)`: an empty sheet. -/
def addWorksheet (N : Type) (name : String) : Worksheet N :=
  { name := name, columns := [], rows := [] }

/-- Assignment `sheet.columns = cols`: the column definitions are kept and
their headers are written to row 1. -/
def Worksheet.setColumns {N : Type} (sheet : Worksheet N) (cols : List Column) :
    Worksheet N :=
  { sheet with columns := cols, rows := [cols.map (fun c => Cell.text c.header)] }

/-- Property access `r[key]` on a row of the all-records query. -/
def AdminRow.get {N : Type} (r : AdminRow N) (key : String) : Option (Cell N) :=
  if key == "id" then some (.int r.id)
  else if key == "name" then some (.text r.name)
  else if key == "email" then some (.text r.email)
  else if key == "input_value" then some (.num r.input_value)
  else if key == "output_value" then some (.num r.output_value)
  else if key == "remaining_value" then some (.num r.remaining_value)
  else if key == "note" then some (match r.note with | some t => .text t | none => .null)
  else if key == "created_at" then some (.time r.created_at)
  else none

/-- Method `sheet.addRow(r)` for an object `r`: a new last row whose cell under
each column is the value of `r` at the column's key (empty when `r` has no
such property). -/
def Worksheet.addRow {N : Type} (sheet : Worksheet N) (r : AdminRow N) : Worksheet N :=
  { sheet with
    rows := sheet.rows ++ [sheet.columns.map (fun c => (r.get c.key).getD .null)] }

/-- The value assigned to `sheet.columns` (lines 174-183). -/
def exportColumns : List Column :=
  [ ⟨"Record ID", "id", 12⟩,
    ⟨"User Name", "name", 20⟩,
    ⟨"User Email", "email", 28⟩,
    ⟨"Input", "input_value", 12⟩,
    ⟨"Output", "output_value", 12⟩,
    ⟨"Remaining", "remaining_value", 12⟩,
    ⟨"Note", "note", 30⟩,
    ⟨"Created At (UTC)", "created_at", 24⟩ ]

/-- The sheet of lines 172-183 and 192: the columns are set, then
`rows.forEach(r => sheet.addRow(r))`. -/
def exportSheet {N : Type} (rows : List (AdminRow N)) : Worksheet N :=
  rows.foldl (fun sheet r => sheet.addRow r)
    ((addWorksheet N "All Records").setColumns exportColumns)

/-- The two headers set on the export response (lines 194-195). -/
def exportHeaders : List (String × String) :=
  [ ("Content-Disposition", "attachment; filename=\"all-records.xlsx\""),
    ("Content-Type",
      "application/vnd.openxmlformats-officedocument.spreadsheetml.sheet") ]

/-- Handler of `GET /admin/export` (lines 171-198), behind `ensureAdmin`. The
body sent is the serialised workbook, kept here as the sheet itself. -/
def get_admin_export_handler {N : Type} (o : Oracle) (session : Option SessionUser)
    (s : Store N) : Outcome N :=
  let rows :=
    match db_allRecords o.fault s with
    | .error _ => []
    | .ok rows => rows
  ⟨s, session, .send exportHeaders (exportSheet rows), [.selectAllRecords]⟩

/-- Route `GET /admin/export`. -/
def get_admin_export {N : Type} (o : Oracle) (session : Option SessionUser)
    (s : Store N) : Outcome N :=
  guarded ensureAdmin (get_admin_export_handler o) session s

/-! ## `initDb` (`src/db.js`, lines 11-56) -/

/-- What the environment decides for one run of `initDb`: the error, if any,
the store raises for each of its five statements, the salt and the clock. -/
structure InitOracle where
  pragmaFault : Option JsError
  createUsersFault : Option JsError
  createRecordsFault : Option JsError
  countFault : Option JsError
  insertFault : Option JsError
  salt : String
  now : Nat
  deriving DecidableEq, Repr

/-- No statement of `initDb` fails for a reason of the store's own. -/
def InitOracle.quiet (salt : String) (now : Nat) : InitOracle :=
  ⟨none, none, none, none, none, salt, now⟩

/-- Result of `initDb`: the store afterwards, the rejection reason (none when
the promise resolves) and the statements issued. -/
structure InitOutcome (N : Type) where
  store : Store N
  error : Option JsError
  issued : List (Stmt N)
  deriving DecidableEq, Repr

/-- Function `run(sql)` (lines 58-65) for the PRAGMA and the two `CREATE TABLE
IF NOT EXISTS` statements: both tables exist in every `Store`, so the
statement changes nothing. -/
def run {N : Type} (fault : Option JsError) (s : Store N) : Except JsError (Store N) :=
  match fault with
  | some e => .error e
  | none => .ok s

/-- The row `initDb` seeds (lines 42-44). -/
def defaultAdminStmt {N : Type} (rt : Runtime N) (salt : String) : Stmt N :=
  .insertUser "Admin" "admin@example.com" (rt.bcryptHash "Admin@123" salt) true

/-- Function `initDb` (lines 11-56). -/
def initDb {N : Type} (rt : Runtime N) (o : InitOracle) (s : Store N) : InitOutcome N :=
  match run o.pragmaFault s with
  | .error e => ⟨s, some e, [.pragmaForeignKeys]⟩
  | .ok s1 =>
  match run o.createUsersFault s1 with
  | .error e => ⟨s1, some e, [.pragmaForeignKeys, .createUsers]⟩
  | .ok s2 =>
  match run o.createRecordsFault s2 with
  | .error e => ⟨s2, some e, [.pragmaForeignKeys, .createUsers, .createRecords]⟩
  | .ok s3 =>
  let ddl : List (Stmt N) := [.pragmaForeignKeys, .createUsers, .createRecords]
  match db_countAdmins o.countFault s3 with
  | .error err => ⟨s3, some err, ddl ++ [.countAdmins]⟩
  | .ok c =>
    if c == 0 then
      let hashed := rt.bcryptHash "Admin@123" o.salt
      match db_insertUser o.insertFault o.now "Admin" "admin@example.com" hashed true s3 with
      | .error e => ⟨s3, some e, ddl ++ [.countAdmins, defaultAdminStmt rt o.salt]⟩
      | .ok s4 => ⟨s4, none, ddl ++ [.countAdmins, defaultAdminStmt rt o.salt]⟩
    else ⟨s3, none, ddl ++ [.countAdmins]⟩

/-! ## A reference runtime

Used to evaluate the handlers on concrete requests: numbers are integers or
NaN, `parseFloat` reads an optionally signed run of decimal digits, letters
are lowercased in the ASCII range, and the hash of a password is the salt, a
dollar sign and the password. -/

/-- The value of a run of decimal digits, `acc` being the value read so far;
none when a character is no digit. -/
def readDigits (acc : Nat) : List Char → Option Nat
  | [] => some acc
  | c :: cs =>
    if c.isDigit then readDigits (10 * acc + (c.toNat - 48)) cs else none

/-- The reference runtime's `parseFloat`: NaN unless the string is a non-empty
run of digits with an optional leading minus sign. -/
def refParseFloat (s : String) : Option Int :=
  match s.data with
  | [] => none
  | '-' :: [] => none
  | '-' :: cs => (readDigits 0 cs).map (fun n => -(n : Int))
  | cs => (readDigits 0 cs).map (fun n => (n : Int))

/-- The reference runtime. -/
def refRuntime : Runtime (Option Int) where
  parseFloat := refParseFloat
  isNaN := fun x => x.isNone
  sub := fun a b =>
    match a, b with
    | some x, some y => some (x - y)
    | _, _ => none
  toLowerCase := fun s => ⟨s.data.map Char.toLower⟩
  bcryptHash := fun pw salt => salt ++ "$" ++ pw
  bcryptCompare := fun pw h => h.data.drop (h.data.length - (pw.length + 1)) == '$' :: pw.data

/-! ## Lower-casing with the Final_Sigma rule

`String.prototype.toLowerCase` follows the Unicode default case conversion,
whose mapping of the Greek capital sigma depends on its context. The functions
below implement that conversion for the ASCII and the Greek letters. -/

/-- Cased letters among the ASCII and the Greek letters: A-Z, a-z, U+0391 to
U+03A9 (U+03A2 is unassigned) and U+03B1 to U+03C9. -/
def isCasedLetter (c : Char) : Bool :=
  (65 ≤ c.toNat && c.toNat ≤ 90) || (97 ≤ c.toNat && c.toNat ≤ 122) ||
    (0x391 ≤ c.toNat && c.toNat ≤ 0x3A9 && c.toNat != 0x3A2) ||
    (0x3B1 ≤ c.toNat && c.toNat ≤ 0x3C9)

/-- Case-ignorable characters of the ASCII range: apostrophe, full stop, colon,
circumflex and grave accent. -/
def isCaseIgnorable (c : Char) : Bool :=
  c.toNat == 39 || c.toNat == 46 || c.toNat == 58 || c.toNat == 94 || c.toNat == 96

/-- Whether the nearest character that is not case-ignorable is a cased
letter. -/
def nextIsCased : List Char → Bool
  | [] => false
  | c :: cs => if isCaseIgnorable c then nextIsCased cs else isCasedLetter c

/-- The lower-case mapping of a single character without context: A-Z and the
Greek capitals move up by 32 code points. -/
def lowerChar (c : Char) : Char :=
  if (65 ≤ c.toNat && c.toNat ≤ 90) ||
      (0x391 ≤ c.toNat && c.toNat ≤ 0x3A9 && c.toNat != 0x3A2) then
    Char.ofNat (c.toNat + 32)
  else c

/-- Lower-casing of the characters still to read, `before` being the
characters already read, nearest first. A capital sigma (U+03A3) preceded by a
cased letter and not followed by one becomes the final sigma U+03C2, and the
small sigma U+03C3 otherwise. -/
def lowerWithContext (before : List Char) : List Char → List Char
  | [] => []
  | c :: cs =>
    (if c.toNat == 0x3A3 then
      if nextIsCased before && !nextIsCased cs then Char.ofNat 0x3C2 else Char.ofNat 0x3C3
    else lowerChar c) :: lowerWithContext (c :: before) cs

/-- The reference runtime with the context-sensitive lower-casing. -/
def sigmaRuntime : Runtime (Option Int) :=
  { refRuntime with toLowerCase := fun s => ⟨lowerWithContext [] s.data⟩ }

/-- The upper-case mapping of a single character: a-z and the Greek small
letters move down by 32 code points, the final sigma U+03C2 maps to the
capital sigma U+03A3. -/
def upperChar (c : Char) : Char :=
  if c.toNat == 0x3C2 then Char.ofNat 0x3A3
  else if (97 ≤ c.toNat && c.toNat ≤ 122) || (0x3B1 ≤ c.toNat && c.toNat ≤ 0x3C9) then
    Char.ofNat (c.toNat - 32)
  else c

/-- Two strings differ only by letter case: they have the same length and,
position by position, the same character up to its case. -/
def differOnlyByCase (s t : String) : Bool :=
  s.data.length == t.data.length &&
    (s.data.zip t.data).all (fun p => upperChar p.1 == upperChar p.2)

/-! ## Concrete requests -/

/-- The session of a logged-in non-admin user. -/
def aliceSession : SessionUser :=
  ⟨1, "Alice", "alice@test.com", false⟩

/-- A store holding that user and nothing else. -/
def aliceStore : Store (Option Int) :=
  { users := [⟨1, "Alice", "alice@test.com", "s$pw123456", false, 5⟩]
    records := []
    users_seq := 1
    records_seq := 0 }

/-- The same store after one record was stored. -/
def aliceStoreOneRecord : Store (Option Int) :=
  { aliceStore with
    records := [⟨1, 1, some 100, some 30, some 70, some "x", 9⟩]
    records_seq := 1 }

/-- An oracle under which the store executes the statement. -/
def calm : Oracle :=
  ⟨none, "s", 9⟩

/-- A store with no admin in which a non-admin holds the default admin's
email. -/
def squattedStore : Store (Option Int) :=
  { users := [⟨1, "Bob", "admin@example.com", "s$hunter22", false, 5⟩]
    records := []
    users_seq := 1
    records_seq := 0 }

/-- A store with two users and three records, not in time order. -/
def twoUserStore : Store (Option Int) :=
  { users :=
      [⟨1, "Alice", "alice@test.com", "s$pw123456", false, 5⟩,
       ⟨2, "Bob", "bob@test.com", "s$hunter22", false, 6⟩]
    records :=
      [⟨1, 1, some 100, some 30, some 70, some "x", 9⟩,
       ⟨2, 2, some 5, some 1, some 4, none, 10⟩,
       ⟨3, 1, some 8, some 3, some 5, none, 11⟩]
    users_seq := 2
    records_seq := 3 }

/-! ## Facts about the store's operations -/

/-- The reference runtime's compare accepts a password against its own hash. -/
theorem refRuntime_compare_hash (pw salt : String) :
    refRuntime.bcryptCompare pw (refRuntime.bcryptHash pw salt) = true := by
  show ((salt ++ "$" ++ pw).data.drop ((salt ++ "$" ++ pw).data.length - (pw.length + 1))
    == '$' :: pw.data) = true
  have h1 : (salt ++ "$" ++ pw).data = salt.data ++ ('$' :: pw.data) := by
    simp [String.data_append]
  have h2 : (salt.data ++ '$' :: pw.data).length - (pw.length + 1) = salt.data.length := by
    simp only [List.length_append, List.length_cons, String.length]
    omega
  rw [h1, h2, List.drop_left]
  simp


/-- An executed insert into `records` appends exactly the bound row. -/
theorem db_insertRecord_ok {N : Type} {isNaN : N → Bool} {fault : Option JsError}
    {now user_id : Nat} {iv ov rem : N} {note : Option String} {s s2 : Store N}
    (h : db_insertRecord isNaN fault now user_id iv ov rem note s = .ok s2) :
    s2.users = s.users ∧
      s2.records = s.records ++
        [⟨nextId s.records_seq (s.records.map Record.id), user_id, iv, ov, rem, note, now⟩] := by
  unfold db_insertRecord at h
  cases fault with
  | some e => simp at h
  | none =>
    simp only at h
    split_ifs at h
    injection h with h
    subst h
    exact ⟨rfl, rfl⟩

/-- An executed insert into `users` appends exactly the bound row, and its
email was not present before. -/
theorem db_insertUser_ok {N : Type} {fault : Option JsError} {now : Nat}
    {name email hash : String} {adm : Bool} {s s2 : Store N}
    (h : db_insertUser fault now name email hash adm s = .ok s2) :
    (∀ u ∈ s.users, u.email ≠ email) ∧ s2.records = s.records ∧
      s2.users = s.users ++
        [⟨nextId s.users_seq (s.users.map User.id), name, email, hash, adm, now⟩] := by
  unfold db_insertUser at h
  cases fault with
  | some e => simp at h
  | none =>
    simp only at h
    split_ifs at h with hany
    injection h with h
    subst h
    refine ⟨?_, rfl, rfl⟩
    intro u hu heq
    exact hany (List.any_eq_true.mpr ⟨u, hu, by simp [heq]⟩)

/-- An insert into `users` with an email not yet present is executed. -/
theorem db_insertUser_fresh {N : Type} (now : Nat) (name email hash : String)
    (adm : Bool) (s : Store N) (hfresh : ∀ u ∈ s.users, u.email ≠ email) :
    db_insertUser none now name email hash adm s =
      .ok { s with
        users := s.users ++
          [⟨nextId s.users_seq (s.users.map User.id), name, email, hash, adm, now⟩]
        users_seq := nextId s.users_seq (s.users.map User.id) } := by
  have hany : (s.users.any fun u => u.email == email) = false := by
    rw [Bool.eq_false_iff]
    intro hc
    obtain ⟨u, hu, he⟩ := List.any_eq_true.mp hc
    exact hfresh u hu (by simpa using he)
  simp [db_insertUser, hany]

/-- An insert into `users` with an email already present fails on UNIQUE. -/
theorem db_insertUser_taken {N : Type} (now : Nat) (name email hash : String)
    (adm : Bool) (s : Store N) (u : User) (hu : u ∈ s.users) (he : u.email = email) :
    db_insertUser none now name email hash adm s = .error uniqueEmailError := by
  have hany : (s.users.any fun u => u.email == email) = true :=
    List.any_eq_true.mpr ⟨u, hu, by simp [he]⟩
  simp [db_insertUser, hany]

/-- The handler of `POST /register` once all three fields are present. -/
theorem post_register_eq {N : Type} (rt : Runtime N) (o : Oracle) (body : Body)
    (session : Option SessionUser) (s : Store N) (name email password : String)
    (hn : body.lookup "name" = some name) (he : body.lookup "email" = some email)
    (hp : body.lookup "password" = some password)
    (hnne : name ≠ "") (hene : email ≠ "") (hpne : password ≠ "") :
    post_register rt o body session s =
      match db_insertUser o.fault o.now name (rt.toLowerCase email)
          (rt.bcryptHash password o.salt) false s with
      | .error err =>
        ⟨s, session,
          .render 400 (.register (some
            (if (if err.message != "" && jsIncludes err.message "UNIQUE" then
                  (⟨"Email already registered."⟩ : JsError) else err).message == ""
              then "Registration failed."
              else (if err.message != "" && jsIncludes err.message "UNIQUE" then
                  (⟨"Email already registered."⟩ : JsError) else err).message))),
          [.insertUser name (rt.toLowerCase email) (rt.bcryptHash password o.salt) false]⟩
      | .ok s2 =>
        ⟨s2, session, .redirect "/login",
          [.insertUser name (rt.toLowerCase email) (rt.bcryptHash password o.salt) false]⟩ := by
  have hc : (name == "" || email == "" || password == "") = false := by
    simp [hnne, hene, hpne]
  simp only [post_register, hn, he, hp, jsFalsy, Option.getD_some, hc, Bool.false_eq_true,
    if_false]

/-- Registration never changes which rows are admins. -/
theorem post_register_admins {N : Type} (rt : Runtime N) (o : Oracle) (body : Body)
    (session : Option SessionUser) (s : Store N) :
    (post_register rt o body session s).store.users.filter (fun u => u.is_admin) =
      s.users.filter (fun u => u.is_admin) := by
  unfold post_register
  simp only
  split_ifs
  · rfl
  · cases hres : db_insertUser o.fault o.now ((body.lookup "name").getD "")
        (rt.toLowerCase ((body.lookup "email").getD ""))
        (rt.bcryptHash ((body.lookup "password").getD "") o.salt) false s with
    | error e => rfl
    | ok s2 =>
      simp only
      rw [(db_insertUser_ok hres).2.2]
      simp

/-- The two ways a run of `initDb` ends: the store is untouched (and the run
resolves only if an admin was present), or there was no admin and the seeding
insert was executed. -/
theorem initDb_cases {N : Type} (rt : Runtime N) (o : InitOracle) (s : Store N) :
    ((initDb rt o s).store = s ∧
      ((initDb rt o s).error = none → (s.users.filter (fun u => u.is_admin)).length ≠ 0)) ∨
    ((s.users.filter (fun u => u.is_admin)).length = 0 ∧ (initDb rt o s).error = none ∧
      db_insertUser o.insertFault o.now "Admin" "admin@example.com"
        (rt.bcryptHash "Admin@123" o.salt) true s = .ok (initDb rt o s).store) := by
  rcases o with ⟨f1, f2, f3, f4, f5, salt, now⟩
  cases f1 with
  | some e => exact Or.inl ⟨rfl, fun h => Option.noConfusion h⟩
  | none =>
  cases f2 with
  | some e => exact Or.inl ⟨rfl, fun h => Option.noConfusion h⟩
  | none =>
  cases f3 with
  | some e => exact Or.inl ⟨rfl, fun h => Option.noConfusion h⟩
  | none =>
  cases f4 with
  | some e => exact Or.inl ⟨rfl, fun h => Option.noConfusion h⟩
  | none =>
  simp only [initDb, run, db_countAdmins]
  by_cases h : (s.users.filter (fun u => u.is_admin)).length = 0
  · simp only [h, beq_self_eq_true, if_true]
    cases hres : db_insertUser f5 now "Admin" "admin@example.com"
        (rt.bcryptHash "Admin@123" salt) true s with
    | error e => simp
    | ok s4 => simp
  · have hb : ((s.users.filter (fun u => u.is_admin)).length == 0) = false := by
      simpa using h
    simp only [hb, Bool.false_eq_true, if_false]
    exact Or.inl ⟨trivial, fun _ => h⟩

/-- No admin row: the count of line 38 is zero. -/
theorem no_admin_iff (users : List User) :
    (users.filter (fun u => u.is_admin)).length = 0 ↔ ∀ u ∈ users, u.is_admin = false := by
  rw [List.length_eq_zero, List.filter_eq_nil_iff]
  simp

/-- With an admin present `initDb` issues no insert. -/
theorem initDb_issued_of_admin {N : Type} (rt : Runtime N) (o : InitOracle) (s : Store N)
    (hadm : ∃ u ∈ s.users, u.is_admin = true) :
    ∀ n e h a, Stmt.insertUser n e h a ∉ (initDb rt o s).issued := by
  have hc : ((s.users.filter (fun u => u.is_admin)).length == 0) = false := by
    rw [beq_eq_false_iff_ne, ne_eq, no_admin_iff]
    intro hall
    obtain ⟨u, hu, ha⟩ := hadm
    rw [hall u hu] at ha
    exact Bool.noConfusion ha
  intro n e h a
  rcases o with ⟨f1, f2, f3, f4, f5, salt, now⟩
  cases f1 <;> cases f2 <;> cases f3 <;> cases f4 <;>
    simp [initDb, run, db_countAdmins, hc]

/-- Clause `ORDER BY created_at DESC` keeps exactly the rows it is given. -/
theorem orderByCreatedAtDesc_perm {α : Type} (created_at : α → Nat) (rows : List α) :
    (orderByCreatedAtDesc created_at rows).Perm rows :=
  List.perm_insertionSort _ rows

/-- Clause `ORDER BY created_at DESC` returns the rows newest first. -/
theorem orderByCreatedAtDesc_sorted {α : Type} (created_at : α → Nat) (rows : List α) :
    (orderByCreatedAtDesc created_at rows).Pairwise
      (fun a b => created_at b ≤ created_at a) := by
  haveI : IsTotal α (fun a b => created_at b ≤ created_at a) :=
    ⟨fun a b => Nat.le_total (created_at b) (created_at a)⟩
  haveI : IsTrans α (fun a b => created_at b ≤ created_at a) :=
    ⟨fun _ _ _ hab hbc => Nat.le_trans hbc hab⟩
  exact List.sorted_insertionSort (fun a b => created_at b ≤ created_at a) rows

/-- Adding rows one by one appends one line of cells per row, in order. -/
theorem foldl_addRow {N : Type} (rows : List (AdminRow N)) (sheet : Worksheet N) :
    rows.foldl (fun sh r => sh.addRow r) sheet =
      { sheet with
        rows := sheet.rows ++
          rows.map (fun r => sheet.columns.map (fun c => (r.get c.key).getD .null)) } := by
  induction rows generalizing sheet with
  | nil => simp
  | cons r rest ih =>
    rw [List.foldl_cons, ih]
    simp [Worksheet.addRow]

/-! ## Theorems -/

/-- C1: for an authenticated non-admin session and body strings `a`, `b` whose
`parseFloat` results are not NaN, `POST /records` issues exactly one statement,
the insert with parameters (session user id, iv, ov, iv - ov, note or null),
and redirects to the dashboard; the insert, when the store executes it, appends
exactly that row, and every row of the table afterwards is an old row or a
row of this user whose remaining value is its input minus its output. -/
theorem post_records_stores_difference {N : Type} (rt : Runtime N) (o : Oracle)
    (body : Body) (user : SessionUser) (s : Store N) (a b : String)
    (hna : user.is_admin = false)
    (ha : body.lookup "input_value" = some a)
    (hb : body.lookup "output_value" = some b)
    (hiv : rt.isNaN (rt.parseFloat a) = false)
    (hov : rt.isNaN (rt.parseFloat b) = false) :
    (post_records rt o body (some user) s).issued =
        [.insertRecord user.id (rt.parseFloat a) (rt.parseFloat b)
          (rt.sub (rt.parseFloat a) (rt.parseFloat b)) (jsOrNull (body.lookup "note"))] ∧
    (post_records rt o body (some user) s).response = .redirect "/dashboard" ∧
    (o.fault = none → rt.isNaN (rt.sub (rt.parseFloat a) (rt.parseFloat b)) = false →
      (∃ u ∈ s.users, u.id = user.id) →
      (post_records rt o body (some user) s).store.records =
        s.records ++ [⟨nextId s.records_seq (s.records.map Record.id), user.id,
          rt.parseFloat a, rt.parseFloat b, rt.sub (rt.parseFloat a) (rt.parseFloat b),
          jsOrNull (body.lookup "note"), o.now⟩]) ∧
    (∀ r ∈ (post_records rt o body (some user) s).store.records,
      r ∈ s.records ∨
        (r.user_id = user.id ∧ r.input_value = rt.parseFloat a ∧
          r.output_value = rt.parseFloat b ∧
          r.remaining_value = rt.sub r.input_value r.output_value)) := by
  have hstore : ∀ r ∈ (post_records rt o body (some user) s).store.records,
      r ∈ s.records ∨
        (r.user_id = user.id ∧ r.input_value = rt.parseFloat a ∧
          r.output_value = rt.parseFloat b ∧
          r.remaining_value = rt.sub r.input_value r.output_value) := by
    intro r hr
    simp only [post_records, guarded, ensureAuth, post_records_handler, hna, ha, hb,
      parseFloatField, hiv, hov, Bool.or_self, Bool.false_eq_true, if_false] at hr
    rcases hres : db_insertRecord rt.isNaN o.fault o.now user.id (rt.parseFloat a)
        (rt.parseFloat b) (rt.sub (rt.parseFloat a) (rt.parseFloat b))
        (jsOrNull (body.lookup "note")) s with e | s2
    · rw [hres] at hr
      exact Or.inl hr
    · rw [hres] at hr
      rw [(db_insertRecord_ok hres).2, List.mem_append, List.mem_singleton] at hr
      rcases hr with hr | hr
      · exact Or.inl hr
      · subst hr
        exact Or.inr ⟨rfl, rfl, rfl, rfl⟩
  refine ⟨?_, ?_, ?_, hstore⟩
  · simp [post_records, guarded, ensureAuth, post_records_handler, hna, ha, hb,
      parseFloatField, hiv, hov]
  · simp [post_records, guarded, ensureAuth, post_records_handler, hna, ha, hb,
      parseFloatField, hiv, hov]
  · intro hf hrem hu
    obtain ⟨u, hu, hid⟩ := hu
    have hany : (s.users.any fun u => u.id == user.id) = true := by
      rw [List.any_eq_true]
      exact ⟨u, hu, by simp [hid]⟩
    simp [post_records, guarded, ensureAuth, post_records_handler, hna, ha, hb,
      parseFloatField, hiv, hov, db_insertRecord, hf, hrem, hany]

/-- Evaluation of C1 on input 100, output 30, note x. -/
theorem post_records_stores_difference_witness :
    (post_records refRuntime calm
        [("input_value", "100"), ("output_value", "30"), ("note", "x")]
        (some aliceSession) aliceStore).issued =
      [.insertRecord 1 (some 100) (some 30) (some 70) (some "x")] ∧
    (post_records refRuntime calm
        [("input_value", "100"), ("output_value", "30"), ("note", "x")]
        (some aliceSession) aliceStore).store.records =
      [⟨1, 1, some 100, some 30, some 70, some "x", 9⟩] :=
  have h := post_records_stores_difference refRuntime calm
    [("input_value", "100"), ("output_value", "30"), ("note", "x")]
    aliceSession aliceStore "100" "30" rfl (by decide) (by decide) (by decide) (by decide)
  ⟨h.1, h.2.2.1 rfl (by decide) ⟨_, List.mem_singleton.mpr rfl, rfl⟩⟩

/-- C2: for an authenticated non-admin session and a body in which
`input_value` or `output_value` parses to NaN, `POST /records` issues the
dashboard query only (no insert), leaves the store and the session unchanged
and answers 400 with the `user_dashboard` view, the error 'Please enter valid
numbers.' and the user's records, newest first, or the empty list when the read
fails. -/
theorem post_records_rejects_nan {N : Type} (rt : Runtime N) (o : Oracle)
    (body : Body) (user : SessionUser) (s : Store N)
    (hna : user.is_admin = false)
    (hnan : rt.isNaN (parseFloatField rt (body.lookup "input_value")) = true ∨
      rt.isNaN (parseFloatField rt (body.lookup "output_value")) = true) :
    (post_records rt o body (some user) s).store = s ∧
    (post_records rt o body (some user) s).session = some user ∧
    (post_records rt o body (some user) s).issued = [.selectRecordsByUser user.id] ∧
    (o.fault = none →
      (post_records rt o body (some user) s).response =
        .render 400 (.user_dashboard user
          ((orderByCreatedAtDesc Record.created_at
            (s.records.filter (fun r => r.user_id == user.id))).map Record.toDashRow)
          (some "Please enter valid numbers."))) ∧
    (∀ e, o.fault = some e →
      (post_records rt o body (some user) s).response =
        .render 400 (.user_dashboard user [] (some "Please enter valid numbers."))) := by
  have hor : (rt.isNaN (parseFloatField rt (body.lookup "input_value")) ||
      rt.isNaN (parseFloatField rt (body.lookup "output_value"))) = true := by
    rcases hnan with h | h <;> simp [h]
  refine ⟨?_, ?_, ?_, ?_, ?_⟩
  · simp [post_records, guarded, ensureAuth, post_records_handler, hna, hor]
  · simp [post_records, guarded, ensureAuth, post_records_handler, hna, hor]
  · simp [post_records, guarded, ensureAuth, post_records_handler, hna, hor]
  · intro hf
    simp [post_records, guarded, ensureAuth, post_records_handler, hna, hor,
      db_recordsForUser, hf]
  · intro e hf
    simp [post_records, guarded, ensureAuth, post_records_handler, hna, hor,
      db_recordsForUser, hf]

/-- Evaluation of C2 on `input_value` = abc with one record stored. -/
theorem post_records_rejects_nan_witness :
    (post_records refRuntime calm [("input_value", "abc"), ("output_value", "30")]
        (some aliceSession) aliceStoreOneRecord).store = aliceStoreOneRecord ∧
    (post_records refRuntime calm [("input_value", "abc"), ("output_value", "30")]
        (some aliceSession) aliceStoreOneRecord).response =
      .render 400 (.user_dashboard aliceSession
        [⟨1, some 100, some 30, some 70, some "x", 9⟩]
        (some "Please enter valid numbers.")) :=
  have h := post_records_rejects_nan refRuntime calm
    [("input_value", "abc"), ("output_value", "30")] aliceSession aliceStoreOneRecord
    rfl (Or.inl (by decide))
  ⟨h.1, h.2.2.2.1 rfl⟩

/-- C3: for a login request with non-empty email and password whose lookup the
store executes, the response when no user has the lowercased email (store
`s1`) and the response when users with that email exist but the password
matches none of their hashes (store `s2`) are the same: status 401, the login
view, the error 'Invalid credentials.'; in both cases the session and the
store are left as they were. -/
theorem post_login_failures_identical {N : Type} (rt : Runtime N) (o1 o2 : Oracle)
    (body : Body) (session : Option SessionUser) (s1 s2 : Store N)
    (email password : String)
    (he : body.lookup "email" = some email) (hp : body.lookup "password" = some password)
    (hene : email ≠ "") (hpne : password ≠ "")
    (hf1 : o1.fault = none) (hf2 : o2.fault = none)
    (habsent : ∀ u ∈ s1.users, u.email ≠ rt.toLowerCase email)
    (hexists : ∃ u ∈ s2.users, u.email = rt.toLowerCase email)
    (hbad : ∀ u ∈ s2.users, u.email = rt.toLowerCase email →
      rt.bcryptCompare password u.password_hash = false) :
    (post_login rt o1 body session s1).response =
        .render 401 (.login (some "Invalid credentials.")) ∧
    (post_login rt o2 body session s2).response =
        (post_login rt o1 body session s1).response ∧
    (post_login rt o1 body session s1).session = session ∧
    (post_login rt o2 body session s2).session = session ∧
    (post_login rt o1 body session s1).store = s1 ∧
    (post_login rt o2 body session s2).store = s2 := by
  have hnone : s1.users.find? (fun u => u.email == rt.toLowerCase email) = none := by
    rw [List.find?_eq_none]
    intro u hu hc
    exact habsent u hu (by simpa using hc)
  obtain ⟨u0, hu0, he0⟩ := hexists
  have hsome : ∃ u, s2.users.find? (fun u => u.email == rt.toLowerCase email) = some u ∧
      rt.bcryptCompare password u.password_hash = false := by
    cases hfind : s2.users.find? (fun u => u.email == rt.toLowerCase email) with
    | none =>
      rw [List.find?_eq_none] at hfind
      exact absurd (by simp [he0]) (hfind u0 hu0)
    | some u =>
      exact ⟨u, rfl, hbad u (List.mem_of_find?_eq_some hfind)
        (by simpa using List.find?_some hfind)⟩
  obtain ⟨u, hfind, hcmp⟩ := hsome
  have r1 : post_login rt o1 body session s1 =
      ⟨s1, session, .render 401 (.login (some "Invalid credentials.")),
        [.selectUserByEmail (rt.toLowerCase email)]⟩ := by
    simp [post_login, he, hp, jsFalsy, hene, hpne, db_getUserByEmail, hf1, hnone]
  have r2 : post_login rt o2 body session s2 =
      ⟨s2, session, .render 401 (.login (some "Invalid credentials.")),
        [.selectUserByEmail (rt.toLowerCase email)]⟩ := by
    simp [post_login, he, hp, jsFalsy, hene, hpne, db_getUserByEmail, hf2, hfind, hcmp]
  rw [r1, r2]
  exact ⟨rfl, rfl, rfl, rfl, rfl, rfl⟩

/-- Evaluation of C3: an unknown email on the empty store, a wrong password on
a store holding the user. -/
theorem post_login_failures_identical_witness :
    (post_login refRuntime calm [("email", "Alice@Test.com"), ("password", "wrong")]
        none aliceStore).response =
      (post_login refRuntime calm [("email", "Alice@Test.com"), ("password", "wrong")]
        none (Store.empty (Option Int))).response :=
  (post_login_failures_identical refRuntime calm calm
    [("email", "Alice@Test.com"), ("password", "wrong")] none
    (Store.empty (Option Int)) aliceStore "Alice@Test.com" "wrong" rfl rfl
    (by decide) (by decide) rfl rfl (by decide) (by decide) (by decide)).2.1

/-- C4: `ensureAdmin` calls `next` exactly when the session has a user whose
`is_admin` is true; for every other session it redirects to /login, and then
`GET /admin` and `GET /admin/export` answer with that redirect, issue no
statement, and send neither the listing nor the spreadsheet. -/
theorem ensureAdmin_gates_admin_routes {N : Type} (o : Oracle)
    (session : Option SessionUser) (s : Store N) :
    (ensureAdmin session = .next ↔ ∃ u, session = some u ∧ u.is_admin = true) ∧
    ((¬ ∃ u, session = some u ∧ u.is_admin = true) →
      ensureAdmin session = .redirect "/login" ∧
      get_admin o session s = ⟨s, session, .redirect "/login", []⟩ ∧
      get_admin_export o session s = ⟨s, session, .redirect "/login", []⟩) ∧
    ((∃ u, session = some u ∧ u.is_admin = true) →
      get_admin o session s = get_admin_handler o session s ∧
      get_admin_export o session s = get_admin_export_handler o session s) := by
  cases session with
  | none => simp [ensureAdmin, get_admin, get_admin_export, guarded]
  | some u =>
    cases hadm : u.is_admin <;>
      simp [ensureAdmin, get_admin, get_admin_export, guarded, hadm]

/-- C5 as stated fails: the emails ασ@x.com and ΑΣ@x.com differ only by letter
case, but the capital sigma before the at sign lowercases to the final sigma, so
the two lowercased emails differ and the second registration is accepted. -/
theorem post_register_final_sigma_accepted :
    differOnlyByCase "ασ@x.com" "ΑΣ@x.com" = true ∧
    sigmaRuntime.toLowerCase "ασ@x.com" = "ασ@x.com" ∧
    sigmaRuntime.toLowerCase "ΑΣ@x.com" = "ας@x.com" ∧
    (post_register sigmaRuntime ⟨none, "s", 5⟩
        [("name", "Alice"), ("email", "ασ@x.com"), ("password", "pw123456")] none
        (Store.empty (Option Int))).response = .redirect "/login" ∧
    (post_register sigmaRuntime calm
        [("name", "Eve"), ("email", "ΑΣ@x.com"), ("password", "hunter22")] none
        (post_register sigmaRuntime ⟨none, "s", 5⟩
          [("name", "Alice"), ("email", "ασ@x.com"), ("password", "pw123456")] none
          (Store.empty (Option Int))).store).response = .redirect "/login" ∧
    (post_register sigmaRuntime calm
        [("name", "Eve"), ("email", "ΑΣ@x.com"), ("password", "hunter22")] none
        (post_register sigmaRuntime ⟨none, "s", 5⟩
          [("name", "Alice"), ("email", "ασ@x.com"), ("password", "pw123456")] none
          (Store.empty (Option Int))).store).store.users.map User.email =
      ["ασ@x.com", "ας@x.com"] := by
  decide

/-- C5, amended: when a registration with all fields present succeeds, a second
registration with all fields present whose email has the same lowercased form
(`toLowerCase` gives the same string for both emails) is rejected: it leaves
the store unchanged and answers 400 with the register view; the error is
'Email already registered.' whenever the store raises no error of its own for
the second insert. -/
theorem post_register_rejects_case_variant {N : Type} (rt : Runtime N) (o1 o2 : Oracle)
    (b1 b2 : Body) (sess1 sess2 : Option SessionUser) (s : Store N)
    (name1 email1 pw1 name2 email2 pw2 : String)
    (hn1 : b1.lookup "name" = some name1) (he1 : b1.lookup "email" = some email1)
    (hp1 : b1.lookup "password" = some pw1)
    (hn2 : b2.lookup "name" = some name2) (he2 : b2.lookup "email" = some email2)
    (hp2 : b2.lookup "password" = some pw2)
    (hn1ne : name1 ≠ "") (he1ne : email1 ≠ "") (hp1ne : pw1 ≠ "")
    (hn2ne : name2 ≠ "") (he2ne : email2 ≠ "") (hp2ne : pw2 ≠ "")
    (hcase : rt.toLowerCase email2 = rt.toLowerCase email1)
    (hok : (post_register rt o1 b1 sess1 s).response = .redirect "/login") :
    (post_register rt o2 b2 sess2 (post_register rt o1 b1 sess1 s).store).store =
        (post_register rt o1 b1 sess1 s).store ∧
    (∃ msg, (post_register rt o2 b2 sess2 (post_register rt o1 b1 sess1 s).store).response =
        .render 400 (.register (some msg))) ∧
    (o2.fault = none →
      (post_register rt o2 b2 sess2 (post_register rt o1 b1 sess1 s).store).response =
        .render 400 (.register (some "Email already registered."))) := by
  rw [post_register_eq rt o1 b1 sess1 s name1 email1 pw1 hn1 he1 hp1 hn1ne he1ne hp1ne] at hok ⊢
  cases hres : db_insertUser o1.fault o1.now name1 (rt.toLowerCase email1)
      (rt.bcryptHash pw1 o1.salt) false s with
  | error e => rw [hres] at hok; simp at hok
  | ok s1 =>
    simp only
    have hmem : (⟨nextId s.users_seq (s.users.map User.id), name1, rt.toLowerCase email1,
        rt.bcryptHash pw1 o1.salt, false, o1.now⟩ : User) ∈ s1.users := by
      rw [(db_insertUser_ok hres).2.2]
      simp
    rw [post_register_eq rt o2 b2 sess2 s1 name2 email2 pw2 hn2 he2 hp2 hn2ne he2ne hp2ne]
    cases hf : o2.fault with
    | some e =>
      simp [db_insertUser]
    | none =>
      rw [hcase, db_insertUser_taken o2.now name2 (rt.toLowerCase email1)
        (rt.bcryptHash pw2 o2.salt) false s1 _ hmem rfl]
      have hu : jsIncludes uniqueEmailError.message "UNIQUE" = true := by decide
      have hm : (uniqueEmailError.message != "") = true := by decide
      simp [hu, hm]

/-- Evaluation of C5: Alice@Test.com, then ALICE@test.com. -/
theorem post_register_rejects_case_variant_witness :
    (post_register refRuntime calm
        [("name", "Eve"), ("email", "ALICE@test.com"), ("password", "hunter22")] none
        (post_register refRuntime ⟨none, "s", 5⟩
          [("name", "Alice"), ("email", "Alice@Test.com"), ("password", "pw123456")] none
          (Store.empty (Option Int))).store).response =
      .render 400 (.register (some "Email already registered.")) :=
  (post_register_rejects_case_variant refRuntime ⟨none, "s", 5⟩ calm
    [("name", "Alice"), ("email", "Alice@Test.com"), ("password", "pw123456")]
    [("name", "Eve"), ("email", "ALICE@test.com"), ("password", "hunter22")] none none
    (Store.empty (Option Int)) "Alice" "Alice@Test.com" "pw123456" "Eve" "ALICE@test.com"
    "hunter22" rfl rfl rfl rfl rfl rfl (by decide) (by decide) (by decide) (by decide)
    (by decide) (by decide) (by decide) (by decide)).2.2 rfl

/-- C7: for non-empty name, email and password whose lowercased email is not
in the users table, `POST /register` (the store executing the insert) redirects
to /login, leaves the session as it was and appends a non-admin row; a
following `POST /login` with the same password and any non-empty email that
lowercases to the same string (the store executing the lookup, bcrypt's
compare accepting a password against its own hash) sets the session user to
id, name, lowercased email, `is_admin` false (no password hash) and redirects
to /dashboard. For every body whatsoever, registration leaves the set of admin
rows as it was. -/
theorem register_then_login {N : Type} (rt : Runtime N) (o1 o2 : Oracle)
    (b1 b2 : Body) (sess1 sess2 : Option SessionUser) (s : Store N)
    (name email password email2 : String)
    (hn : b1.lookup "name" = some name) (he : b1.lookup "email" = some email)
    (hp : b1.lookup "password" = some password)
    (hnne : name ≠ "") (hene : email ≠ "") (hpne : password ≠ "")
    (hfresh : ∀ u ∈ s.users, u.email ≠ rt.toLowerCase email)
    (hf1 : o1.fault = none)
    (he2 : b2.lookup "email" = some email2) (hp2 : b2.lookup "password" = some password)
    (he2ne : email2 ≠ "")
    (hcase : rt.toLowerCase email2 = rt.toLowerCase email)
    (hf2 : o2.fault = none)
    (hcmp : ∀ pw salt, rt.bcryptCompare pw (rt.bcryptHash pw salt) = true) :
    (post_register rt o1 b1 sess1 s).response = .redirect "/login" ∧
    (post_register rt o1 b1 sess1 s).session = sess1 ∧
    (post_register rt o1 b1 sess1 s).store.users =
      s.users ++ [⟨nextId s.users_seq (s.users.map User.id), name, rt.toLowerCase email,
        rt.bcryptHash password o1.salt, false, o1.now⟩] ∧
    (post_login rt o2 b2 sess2 (post_register rt o1 b1 sess1 s).store).session =
      some ⟨nextId s.users_seq (s.users.map User.id), name, rt.toLowerCase email, false⟩ ∧
    (post_login rt o2 b2 sess2 (post_register rt o1 b1 sess1 s).store).response =
      .redirect "/dashboard" ∧
    (∀ (o : Oracle) (b : Body) (sess : Option SessionUser) (st : Store N),
      (post_register rt o b sess st).store.users.filter (fun u => u.is_admin) =
        st.users.filter (fun u => u.is_admin)) := by
  have hreg := post_register_eq rt o1 b1 sess1 s name email password hn he hp hnne hene hpne
  rw [hf1, db_insertUser_fresh o1.now name (rt.toLowerCase email)
    (rt.bcryptHash password o1.salt) false s hfresh] at hreg
  simp only at hreg
  have hfindOld : s.users.find? (fun u => u.email == rt.toLowerCase email) = none := by
    rw [List.find?_eq_none]
    intro u hu hc
    exact hfresh u hu (by simpa using hc)
  have hc : (email2 == "" || password == "") = false := by simp [he2ne, hpne]
  rw [hreg]
  refine ⟨rfl, rfl, rfl, ?_, ?_, fun o b sess st => post_register_admins rt o b sess st⟩
  · simp [post_login, he2, hp2, jsFalsy, hc, hcase, db_getUserByEmail, hf2, List.find?_append,
      hfindOld, hcmp]
  · simp [post_login, he2, hp2, jsFalsy, hc, hcase, db_getUserByEmail, hf2, List.find?_append,
      hfindOld, hcmp]

/-- Evaluation of C7: register Alice@Test.com, log in as alice@test.com. -/
theorem register_then_login_witness :
    (post_login refRuntime calm [("email", "alice@test.com"), ("password", "pw123456")] none
        (post_register refRuntime ⟨none, "s", 5⟩
          [("name", "Alice"), ("email", "Alice@Test.com"), ("password", "pw123456"),
            ("is_admin", "1")] none
          (Store.empty (Option Int))).store).session =
      some ⟨1, "Alice", "alice@test.com", false⟩ :=
  (register_then_login refRuntime ⟨none, "s", 5⟩ calm
    [("name", "Alice"), ("email", "Alice@Test.com"), ("password", "pw123456"),
      ("is_admin", "1")]
    [("email", "alice@test.com"), ("password", "pw123456")] none none
    (Store.empty (Option Int)) "Alice" "Alice@Test.com" "pw123456" "alice@test.com"
    rfl rfl rfl (by decide) (by decide) (by decide) (by decide) rfl rfl rfl (by decide)
    (by decide) rfl refRuntime_compare_hash).2.2.2.1

/-- C8 as stated fails: the insert fails with 'SQLITE_BUSY: database is locked',
which is no uniqueness violation, and the response carries that text, not
'Registration failed.'. -/
theorem post_register_busy_shows_store_text :
    jsIncludes "SQLITE_BUSY: database is locked" "UNIQUE" = false ∧
    (post_register refRuntime ⟨some ⟨"SQLITE_BUSY: database is locked"⟩, "s", 5⟩
        [("name", "Alice"), ("email", "Alice@Test.com"), ("password", "pw123456")] none
        (Store.empty (Option Int))).response =
      .render 400 (.register (some "SQLITE_BUSY: database is locked")) ∧
    (post_register refRuntime ⟨some ⟨"SQLITE_BUSY: database is locked"⟩, "s", 5⟩
        [("name", "Alice"), ("email", "Alice@Test.com"), ("password", "pw123456")] none
        (Store.empty (Option Int))).response ≠
      .render 400 (.register (some "Registration failed.")) := by
  decide

/-- C8, amended: for a registration with all fields present whose insert fails
with a store error `e`, the store and the session are unchanged and the answer
is 400 with the register view; when the message of `e` does not contain
'UNIQUE' the error shown is that message itself, and 'Registration failed.'
only when the message is empty; when it contains 'UNIQUE' the error shown is
'Email already registered.'. -/
theorem post_register_store_error {N : Type} (rt : Runtime N) (o : Oracle) (body : Body)
    (session : Option SessionUser) (s : Store N) (name email password : String)
    (e : JsError)
    (hn : body.lookup "name" = some name) (he : body.lookup "email" = some email)
    (hp : body.lookup "password" = some password)
    (hnne : name ≠ "") (hene : email ≠ "") (hpne : password ≠ "")
    (hf : o.fault = some e) :
    (post_register rt o body session s).store = s ∧
    (post_register rt o body session s).session = session ∧
    (jsIncludes e.message "UNIQUE" = false → e.message ≠ "" →
      (post_register rt o body session s).response =
        .render 400 (.register (some e.message))) ∧
    (e.message = "" →
      (post_register rt o body session s).response =
        .render 400 (.register (some "Registration failed."))) ∧
    (jsIncludes e.message "UNIQUE" = true →
      (post_register rt o body session s).response =
        .render 400 (.register (some "Email already registered."))) := by
  rw [post_register_eq rt o body session s name email password hn he hp hnne hene hpne, hf]
  simp only [db_insertUser]
  refine ⟨trivial, trivial, ?_, ?_, ?_⟩
  · intro hu hm
    simp [hu, hm]
  · intro hm
    simp [hm]
  · intro hu
    have hm : e.message ≠ "" := by
      intro hm
      rw [hm] at hu
      exact absurd hu (by decide)
    simp [hu, hm]

/-- Evaluation of the amended C8 on a locked database. -/
theorem post_register_store_error_witness :
    (post_register refRuntime ⟨some ⟨"SQLITE_BUSY: database is locked"⟩, "s", 5⟩
        [("name", "Alice"), ("email", "Alice@Test.com"), ("password", "pw123456")] none
        aliceStore).store = aliceStore :=
  (post_register_store_error refRuntime ⟨some ⟨"SQLITE_BUSY: database is locked"⟩, "s", 5⟩
    [("name", "Alice"), ("email", "Alice@Test.com"), ("password", "pw123456")] none
    aliceStore "Alice" "Alice@Test.com" "pw123456" ⟨"SQLITE_BUSY: database is locked"⟩
    rfl rfl rfl (by decide) (by decide) (by decide) rfl).1

/-- C6 as stated fails: on a users table with no admin row in which
admin@example.com is already taken, `initDb` inserts nothing and rejects with
the UNIQUE error. -/
theorem initDb_seed_blocked :
    (squattedStore.users.filter (fun u => u.is_admin)).length = 0 ∧
    (initDb refRuntime (InitOracle.quiet "s" 7) squattedStore).store = squattedStore ∧
    (initDb refRuntime (InitOracle.quiet "s" 7) squattedStore).error =
      some uniqueEmailError := by
  decide

/-- C6, amended: (1) on a users table with an admin, `initDb` issues no insert
and leaves the store as it was; (2) on a table with no admin and no row holding
admin@example.com, when the store executes all five statements, it resolves
and appends exactly the row (Admin, admin@example.com, hash of Admin@123,
admin); (3) on a table with no admin where that email is taken it inserts
nothing and rejects; (4) after a run that resolves an admin exists; (5) after
a run that resolves, a further run leaves the store as it is; (6) a run never
does more than append that one row. -/
theorem initDb_seeds_default_admin {N : Type} (rt : Runtime N) (o : InitOracle)
    (s : Store N) :
    ((∃ u ∈ s.users, u.is_admin = true) →
      (initDb rt o s).store = s ∧
      ∀ n e h a, Stmt.insertUser n e h a ∉ (initDb rt o s).issued) ∧
    ((∀ u ∈ s.users, u.is_admin = false) →
      (∀ u ∈ s.users, u.email ≠ "admin@example.com") →
      o.pragmaFault = none → o.createUsersFault = none → o.createRecordsFault = none →
      o.countFault = none → o.insertFault = none →
      (initDb rt o s).error = none ∧
      (initDb rt o s).store.records = s.records ∧
      (initDb rt o s).store.users =
        s.users ++ [⟨nextId s.users_seq (s.users.map User.id), "Admin", "admin@example.com",
          rt.bcryptHash "Admin@123" o.salt, true, o.now⟩]) ∧
    ((∀ u ∈ s.users, u.is_admin = false) →
      (∃ u ∈ s.users, u.email = "admin@example.com") →
      (initDb rt o s).store = s ∧ (initDb rt o s).error ≠ none) ∧
    ((initDb rt o s).error = none →
      ∃ u ∈ (initDb rt o s).store.users, u.is_admin = true) ∧
    ((initDb rt o s).error = none →
      ∀ o2, (initDb rt o2 (initDb rt o s).store).store = (initDb rt o s).store) ∧
    ((initDb rt o s).store = s ∨
      (initDb rt o s).store.users =
        s.users ++ [⟨nextId s.users_seq (s.users.map User.id), "Admin", "admin@example.com",
          rt.bcryptHash "Admin@123" o.salt, true, o.now⟩]) := by
  have hkeep : ∀ (o2 : InitOracle) (t : Store N), (∃ u ∈ t.users, u.is_admin = true) →
      (initDb rt o2 t).store = t := by
    intro o2 t hadm
    rcases initDb_cases rt o2 t with h | h
    · exact h.1
    · obtain ⟨u, hu, ha⟩ := hadm
      rw [(no_admin_iff t.users).mp h.1 u hu] at ha
      exact Bool.noConfusion ha
  have hadmin : (initDb rt o s).error = none →
      ∃ u ∈ (initDb rt o s).store.users, u.is_admin = true := by
    intro herr
    rcases initDb_cases rt o s with h | h
    · rw [h.1]
      by_contra hno
      push_neg at hno
      exact h.2 herr ((no_admin_iff s.users).mpr
        (fun u hu => by simpa using hno u hu))
    · rw [(db_insertUser_ok h.2.2).2.2]
      exact ⟨_, List.mem_append_right _ (List.mem_singleton.mpr rfl), rfl⟩
  refine ⟨fun hadm => ⟨hkeep o s hadm, initDb_issued_of_admin rt o s hadm⟩, ?_, ?_, hadmin,
    fun herr o2 => hkeep o2 _ (hadmin herr), ?_⟩
  · intro hno hfree h1 h2 h3 h4 h5
    have hc : ((s.users.filter (fun u => u.is_admin)).length == 0) = true := by
      rw [beq_iff_eq]
      exact (no_admin_iff s.users).mpr hno
    simp only [initDb, run, db_countAdmins, h1, h2, h3, h4, h5, hc, if_true,
      db_insertUser_fresh o.now "Admin" "admin@example.com" (rt.bcryptHash "Admin@123" o.salt)
        true s hfree]
    exact ⟨trivial, trivial, trivial⟩
  · intro hno htaken
    rcases initDb_cases rt o s with h | h
    · exact ⟨h.1, fun herr => h.2 herr ((no_admin_iff s.users).mpr hno)⟩
    · obtain ⟨u, hu, he⟩ := htaken
      exact absurd he ((db_insertUser_ok h.2.2).1 u hu)
  · rcases initDb_cases rt o s with h | h
    · exact Or.inl h.1
    · exact Or.inr (db_insertUser_ok h.2.2).2.2

/-- Evaluation of the amended C6 on the empty database: the first run seeds
the admin, the second run changes nothing. -/
theorem initDb_seeds_default_admin_witness :
    (initDb refRuntime (InitOracle.quiet "s" 7) (Store.empty (Option Int))).store.users =
      [⟨1, "Admin", "admin@example.com", "s$Admin@123", true, 7⟩] ∧
    (initDb refRuntime (InitOracle.quiet "t" 8)
        (initDb refRuntime (InitOracle.quiet "s" 7) (Store.empty (Option Int))).store).store =
      (initDb refRuntime (InitOracle.quiet "s" 7) (Store.empty (Option Int))).store :=
  have h := initDb_seeds_default_admin refRuntime (InitOracle.quiet "s" 7)
    (Store.empty (Option Int))
  ⟨(h.2.1 (by decide) (by decide) rfl rfl rfl rfl rfl).2.2,
    h.2.2.2.2.1 (by decide) (InitOracle.quiet "t" 8)⟩

/-- C9: for an authenticated non-admin session `GET /dashboard` issues the one
select and leaves the store as it was; when the read succeeds the rendered
records are, up to order, exactly the stored records whose `user_id` is the
session user's id (in their dashboard columns), and they are ordered by
`created_at` descending; when the read fails the page is rendered with the
empty list and no error. -/
theorem get_dashboard_lists_own_records {N : Type} (o : Oracle) (user : SessionUser)
    (s : Store N) (hna : user.is_admin = false) :
    (get_dashboard o (some user) s).store = s ∧
    (get_dashboard o (some user) s).issued = [.selectRecordsByUser user.id] ∧
    (o.fault = none →
      ∃ rows, (get_dashboard o (some user) s).response =
          .render 200 (.user_dashboard user rows none) ∧
        rows.Perm ((s.records.filter (fun r => r.user_id == user.id)).map Record.toDashRow) ∧
        rows.Pairwise (fun a b => b.created_at ≤ a.created_at)) ∧
    (∀ e, o.fault = some e →
      (get_dashboard o (some user) s).response =
        .render 200 (.user_dashboard user [] none)) := by
  refine ⟨?_, ?_, ?_, ?_⟩
  · simp [get_dashboard, guarded, ensureAuth, get_dashboard_handler, hna]
  · simp [get_dashboard, guarded, ensureAuth, get_dashboard_handler, hna]
  · intro hf
    refine ⟨(orderByCreatedAtDesc Record.created_at
      (s.records.filter (fun r => r.user_id == user.id))).map Record.toDashRow, ?_, ?_, ?_⟩
    · simp [get_dashboard, guarded, ensureAuth, get_dashboard_handler, hna,
        db_recordsForUser, hf]
    · exact (orderByCreatedAtDesc_perm _ _).map _
    · rw [List.pairwise_map]
      exact orderByCreatedAtDesc_sorted Record.created_at _
  · intro e hf
    simp [get_dashboard, guarded, ensureAuth, get_dashboard_handler, hna,
      db_recordsForUser, hf]

/-- Evaluation of C9 on a store with two users: Alice sees her two records,
newest first, and not Bob's. -/
theorem get_dashboard_lists_own_records_witness :
    (get_dashboard calm (some aliceSession) twoUserStore).response =
      .render 200 (.user_dashboard aliceSession
        [⟨3, some 8, some 3, some 5, none, 11⟩, ⟨1, some 100, some 30, some 70, some "x", 9⟩]
        none) ∧
    (get_dashboard calm (some aliceSession) twoUserStore).store = twoUserStore :=
  ⟨by decide, (get_dashboard_lists_own_records calm aliceSession twoUserStore rfl).1⟩

/-- C10: for every list of rows the sheet built by the export has the eight
headers Record ID, User Name, User Email, Input, Output, Remaining, Note,
Created At (UTC) in that order, bound to the keys id, name, email,
input_value, output_value, remaining_value, note, created_at; its first line
is the header line and it is followed by exactly one line per row, in the
order of the rows, holding the row's values under those keys. For an admin
session `GET /admin/export` sends the sheet of the query's rows, the sheet
with the header line only when the query fails, under a Content-Disposition
naming the attachment all-records.xlsx. -/
theorem export_sheet_layout {N : Type} (rows : List (AdminRow N)) (o : Oracle)
    (user : SessionUser) (s : Store N) (hadm : user.is_admin = true) :
    (exportSheet rows).columns.map Column.header =
      ["Record ID", "User Name", "User Email", "Input", "Output", "Remaining", "Note",
        "Created At (UTC)"] ∧
    (exportSheet rows).columns.map Column.key =
      ["id", "name", "email", "input_value", "output_value", "remaining_value", "note",
        "created_at"] ∧
    (exportSheet rows).rows =
      [.text "Record ID", .text "User Name", .text "User Email", .text "Input",
        .text "Output", .text "Remaining", .text "Note", .text "Created At (UTC)"] ::
      rows.map (fun r =>
        [.int r.id, .text r.name, .text r.email, .num r.input_value, .num r.output_value,
          .num r.remaining_value,
          (match r.note with | some t => .text t | none => .null),
          .time r.created_at]) ∧
    (∀ qrows, db_allRecords o.fault s = .ok qrows →
      (get_admin_export o (some user) s).response = .send exportHeaders (exportSheet qrows)) ∧
    (∀ e, db_allRecords o.fault s = .error e →
      (get_admin_export o (some user) s).response = .send exportHeaders (exportSheet []) ∧
      (exportSheet ([] : List (AdminRow N))).rows.length = 1) ∧
    exportHeaders.lookup "Content-Disposition" =
      some "attachment; filename=\"all-records.xlsx\"" := by
  have hsheet : exportSheet rows =
      { name := "All Records", columns := exportColumns,
        rows := [exportColumns.map (fun c => Cell.text c.header)] ++
          rows.map (fun r => exportColumns.map (fun c => (r.get c.key).getD .null)) } := by
    rw [exportSheet, foldl_addRow]
    rfl
  refine ⟨?_, ?_, ?_, ?_, ?_, ?_⟩
  · rw [hsheet]; rfl
  · rw [hsheet]; rfl
  · rw [hsheet]
    simp only [List.singleton_append, List.cons.injEq]
    refine ⟨rfl, List.map_congr_left (fun r _ => ?_)⟩
    simp [exportColumns, AdminRow.get]
  · intro qrows hq
    simp [get_admin_export, guarded, ensureAdmin, hadm, get_admin_export_handler, hq]
  · intro e hq
    refine ⟨?_, rfl⟩
    simp [get_admin_export, guarded, ensureAdmin, hadm, get_admin_export_handler, hq]
  · rfl

/-- Evaluation of C10 on the one record of the end-to-end example. -/
theorem export_sheet_layout_witness :
    (exportSheet
        [(⟨1, "Alice", "alice@test.com", some 100, some 30, some 70, some "x", 9⟩ :
          AdminRow (Option Int))]).rows =
      [[.text "Record ID", .text "User Name", .text "User Email", .text "Input",
        .text "Output", .text "Remaining", .text "Note", .text "Created At (UTC)"],
       [.int 1, .text "Alice", .text "alice@test.com", .num (some 100), .num (some 30),
        .num (some 70), .text "x", .time 9]] :=
  (export_sheet_layout
    [(⟨1, "Alice", "alice@test.com", some 100, some 30, some 70, some "x", 9⟩ :
      AdminRow (Option Int))]
    calm ⟨7, "Admin", "admin@example.com", true⟩ aliceStoreOneRecord rfl).2.2.1

end UserDataPortal
